import Mathlib

/-
Verification of the header
src/tvb_multiscale/tvb_nest/nest/modules/dev/iaf_cond_ampa_gaba_nmda_deco2014/iaf_cond_ampa_gaba_nmda_deco2014module.h

The header declares a NEST plugin module class with five members
(constructor, destructor, init, name, commandstring), an include guard and
two host includes.  The companion implementation file is not part of the
repository sources, so behavioural facts about the member functions are
modelled from the specification text and marked as such.
-/

/-- Grammar of the C++ types that appear in the header's declarations,
together with the integral types a result-code-returning signature would
use (so that the absence of result codes is a non-vacuous statement). -/
inductive CppType where
  | void
  | constStdString
  | ptrTo (cls : String)
  | intType
  | boolType
deriving DecidableEq, Repr

/-- Access specifier of a C++ member block. -/
inductive Access where
  | publicAcc
  | protectedAcc
  | privateAcc
deriving DecidableEq, Repr

/-- Kind of a C++ member function: constructor, destructor, or ordinary
method with return type, parameter types and const qualifier. -/
inductive MemberKind where
  | ctor (params : List CppType)
  | dtor
  | method (ret : CppType) (params : List CppType) (isConst : Bool)
deriving DecidableEq, Repr

/-- A declared member function: its name and kind. -/
structure MemberFn where
  name : String
  kind : MemberKind
deriving DecidableEq, Repr

/-- One access block of a class body: its access specifier, the member
functions, data members and nested classes it declares. -/
structure AccessBlock where
  access : Access
  fns : List MemberFn
  dataMembers : List String
  nestedClasses : List String
deriving DecidableEq, Repr

/-- A C++ class declaration: name, base classes (with access), body blocks. -/
structure CppClass where
  name : String
  bases : List (Access × String)
  blocks : List AccessBlock
deriving DecidableEq, Repr

/-- Top-level declarations of the header (the file declares one class). -/
inductive TopDecl where
  | classDecl (c : CppClass)
deriving DecidableEq, Repr

/-- A guarded header file: guard symbol, includes, and the declarations
between the guard lines. -/
structure HeaderFile where
  guardSym : String
  includes : List String
  decls : List TopDecl
deriving DecidableEq, Repr

/-- The module class name (header line 36). -/
def moduleClassName : String := "iaf_cond_ampa_gaba_nmda_deco2014module"

/-- The destructor's declared name (header line 50). -/
def moduleDtorName : String := "~iaf_cond_ampa_gaba_nmda_deco2014module"

/-- The include-guard symbol (header lines 25 to 26 and 75). -/
def guardName : String := "IAF_COND_DECO2014MODULE_H"

/-- The base class named on header line 36. -/
def sliModuleName : String := "SLIModule"

/-- The parameter class of init (header line 56). -/
def sliInterpreterName : String := "SLIInterpreter"

/-- First include of the header (line 28). -/
def slimoduleInclude : String := "slimodule.h"

/-- Second include of the header (line 29). -/
def slifunctionInclude : String := "slifunction.h"

/-- Constructor declaration, header line 45. -/
def ctorDecl : MemberFn :=
  { name := moduleClassName, kind := MemberKind.ctor [] }

/-- Destructor declaration, header line 50. -/
def dtorDecl : MemberFn :=
  { name := moduleDtorName, kind := MemberKind.dtor }

/-- Declaration of init, header line 56: void init( SLIInterpreter* ). -/
def initDecl : MemberFn :=
  { name := "init"
  , kind := MemberKind.method CppType.void [CppType.ptrTo sliInterpreterName] false }

/-- Declaration of name, header line 61: const std::string name( void ) const. -/
def nameDecl : MemberFn :=
  { name := "name"
  , kind := MemberKind.method CppType.constStdString [] true }

/-- Declaration of commandstring, header line 68:
const std::string commandstring( void ) const. -/
def commandstringDecl : MemberFn :=
  { name := "commandstring"
  , kind := MemberKind.method CppType.constStdString [] true }

/-- The class declared on header lines 36 to 73: derives publicly from
SLIModule and has two public blocks, the first holding the five member
functions, the second empty ("Classes implementing your functions"). -/
def moduleClass : CppClass :=
  { name := moduleClassName
  , bases := [(Access.publicAcc, sliModuleName)]
  , blocks :=
    [ { access := Access.publicAcc
      , fns := [ctorDecl, dtorDecl, initDecl, nameDecl, commandstringDecl]
      , dataMembers := []
      , nestedClasses := [] }
    , { access := Access.publicAcc
      , fns := []
      , dataMembers := []
      , nestedClasses := [] } ] }

/-- The header file: guard symbol, its two includes, and its single
top-level declaration. -/
def headerFile : HeaderFile :=
  { guardSym := guardName
  , includes := [slimoduleInclude, slifunctionInclude]
  , decls := [TopDecl.classDecl moduleClass] }

/-- All member functions of a class, across its blocks. -/
def CppClass.allFns (c : CppClass) : List MemberFn :=
  (c.blocks.map AccessBlock.fns).flatten

/-- All data members of a class, across its blocks. -/
def CppClass.allDataMembers (c : CppClass) : List String :=
  (c.blocks.map AccessBlock.dataMembers).flatten

/-- All nested classes of a class, across its blocks. -/
def CppClass.allNestedClasses (c : CppClass) : List String :=
  (c.blocks.map AccessBlock.nestedClasses).flatten

/-- Return type of a member, when it has one (constructors and destructors
have none). -/
def returnTypeOf : MemberKind → Option CppType
  | MemberKind.ctor _ => none
  | MemberKind.dtor => none
  | MemberKind.method r _ _ => some r

/-- Whether a C++ type is an integral type usable as an error or result
code. -/
def isErrorCodeType : CppType → Bool
  | CppType.intType => true
  | CppType.boolType => true
  | _ => false

/-- Whether a member kind is a const-qualified method. -/
def isConstMethod : MemberKind → Bool
  | MemberKind.method _ _ c => c
  | _ => false

/-- Effect of textually including a guarded header once, given the set of
already-defined preprocessor symbols: if the guard symbol is defined the
body is skipped, otherwise the guard symbol is defined and the body's
declarations are emitted. -/
def includeHeader (f : HeaderFile) (defined : List String) :
    List String × List TopDecl :=
  if f.guardSym ∈ defined then (defined, [])
  else (f.guardSym :: defined, f.decls)

/-- Effect of including a guarded header n times in sequence, accumulating
the emitted declarations. -/
def includeHeaderTimes (f : HeaderFile) : Nat → List String → List String × List TopDecl
  | 0, defined => (defined, [])
  | n + 1, defined =>
    let p := includeHeader f defined
    let q := includeHeaderTimes f n p.1
    (q.1, p.2 ++ q.2)

/-
Host-side model.  The implementation file of the module is absent from the
repository sources; its behaviour is modelled from the specification text
below, definition by definition.
-/

/-- Handle to the host's SLI interpreter, as passed to init. -/
structure SLIInterpreterHandle where
  id : Nat
deriving DecidableEq, Repr

/-- State of the host's dynamic loader: the modules registered with it. -/
structure LoaderState where
  modules : List String
deriving DecidableEq, Repr

/-- State of the host's network-construction subsystem (network kernel):
the neuron model types registered with it. -/
structure KernelState where
  models : List String
deriving DecidableEq, Repr

/-- The host simulator's state visible to the module: dynamic loader and
network kernel. -/
structure HostState where
  loader : LoaderState
  kernel : KernelState
deriving DecidableEq, Repr

/-- The module object.  The class body (header lines 36 to 73) declares no
data members, so the object carries no state of its own. -/
structure ModuleObj where
deriving DecidableEq, Repr

/-- Modelled from the spec: the constructor's implementation file is absent
from the sources; per the spec the constructor "registers the module with a
dynamic loader" and does nothing else.  It returns the constructed object
and the updated host state. -/
def constructModule (s : HostState) : ModuleObj × HostState :=
  (ModuleObj.mk
  , { s with loader := { modules := moduleClassName :: s.loader.modules } })

/-- The neuron model type the module registers, named after the module. -/
def neuronModelName : String := "iaf_cond_ampa_gaba_nmda_deco2014"

/-- Modelled from the spec: init's implementation file is absent from the
sources; per the spec init "registers one neuron model type with the host's
network-construction subsystem" and returns nothing.  The Unit component is
the void return value. -/
def initModule (m : ModuleObj) (_i : SLIInterpreterHandle) (s : HostState) :
    Unit × ModuleObj × HostState :=
  ((), m, { s with kernel := { models := neuronModelName :: s.kernel.models } })

/-- Modelled from the spec: name's implementation file is absent from the
sources; per the spec name "returns a fixed identifying string for the
module".  As a const member it returns the string and the unchanged object. -/
def nameCall (m : ModuleObj) : String × ModuleObj :=
  (moduleClassName, m)

/-- The companion SLI script file name returned by commandstring. -/
def commandScriptName : String := "iaf_cond_ampa_gaba_nmda_deco2014module-init"

/-- Modelled from the spec: commandstring's implementation file is absent
from the sources; per the spec it "returns the name of a companion script
file the host should execute on load".  As a const member it returns the
string and the unchanged object. -/
def commandstringCall (m : ModuleObj) : String × ModuleObj :=
  (commandScriptName, m)

/-- The operations callable on a constructed module object. -/
inductive ModuleOp where
  | opInit (i : SLIInterpreterHandle)
  | opName
  | opCommandstring
deriving DecidableEq, Repr

/-- Apply one operation to a module object and host state. -/
def applyOp (m : ModuleObj) (s : HostState) : ModuleOp → ModuleObj × HostState
  | ModuleOp.opInit i => ((initModule m i s).2.1, (initModule m i s).2.2)
  | ModuleOp.opName => ((nameCall m).2, s)
  | ModuleOp.opCommandstring => ((commandstringCall m).2, s)

/-- Apply a sequence of operations, left to right. -/
def applyOps (p : ModuleObj × HostState) (ops : List ModuleOp) : ModuleObj × HostState :=
  ops.foldl (fun q op => applyOp q.1 q.2 op) p

/-- Whether a member kind returns an integral error or result code. -/
def returnsErrorCode (k : MemberKind) : Bool :=
  match returnTypeOf k with
  | none => false
  | some t => isErrorCodeType t

/-- Once the guard symbol is among the defined symbols, further inclusions
of the guarded header emit nothing and define nothing new. -/
theorem includeHeaderTimes_of_defined (f : HeaderFile) (n : Nat) (defined : List String)
    (h : f.guardSym ∈ defined) : includeHeaderTimes f n defined = (defined, []) := by
  induction n with
  | zero => rfl
  | succ k ih => simp [includeHeaderTimes, includeHeader, h, ih]

/-- Claim C1: the public interface of the class consists of exactly the
constructor, the destructor, init, name and commandstring; every block of
the class body is public and declares no data members and no nested
classes. -/
theorem moduleClass_public_interface :
    moduleClass.allFns = [ctorDecl, dtorDecl, initDecl, nameDecl, commandstringDecl]
    ∧ moduleClass.blocks.all (fun b => b.access == Access.publicAcc) = true
    ∧ moduleClass.allDataMembers = []
    ∧ moduleClass.allNestedClasses = []
    ∧ ctorDecl.kind = MemberKind.ctor []
    ∧ dtorDecl.kind = MemberKind.dtor
    ∧ initDecl.kind = MemberKind.method CppType.void [CppType.ptrTo sliInterpreterName] false
    ∧ nameDecl.kind = MemberKind.method CppType.constStdString [] true
    ∧ commandstringDecl.kind = MemberKind.method CppType.constStdString [] true :=
  ⟨rfl, rfl, rfl, rfl, rfl, rfl, rfl, rfl, rfl⟩

/-- Claim C2: for every interpreter handle and host state, init registers
exactly one neuron model type with the network kernel, returns the void
value, and changes nothing else on the host; its declared return type in
the header is void. -/
theorem initModule_registers_one_model (m : ModuleObj) (i : SLIInterpreterHandle)
    (s : HostState) :
    (initModule m i s).1 = ()
    ∧ (initModule m i s).2.2.kernel.models = neuronModelName :: s.kernel.models
    ∧ (initModule m i s).2.2.kernel.models.length = s.kernel.models.length + 1
    ∧ (initModule m i s).2.2.loader = s.loader
    ∧ (initModule m i s).2.1 = m
    ∧ initDecl.kind = MemberKind.method CppType.void [CppType.ptrTo sliInterpreterName] false :=
  ⟨rfl, rfl, rfl, rfl, rfl, rfl⟩

/-- Claim C3: name returns the same fixed string for every module object
and every call, independently of any prior operations on the object. -/
theorem name_returns_fixed_string (m m2 : ModuleObj) (p : ModuleObj × HostState)
    (ops : List ModuleOp) :
    (nameCall m).1 = (nameCall m2).1
    ∧ (nameCall (applyOps p ops).1).1 = (nameCall p.1).1
    ∧ (nameCall m).1 = moduleClassName :=
  ⟨rfl, rfl, rfl⟩

/-- Claim C4: commandstring returns the same fixed companion script file
name for every module object and every call, independently of any prior
operations on the object. -/
theorem commandstring_returns_fixed_string (m m2 : ModuleObj) (p : ModuleObj × HostState)
    (ops : List ModuleOp) :
    (commandstringCall m).1 = (commandstringCall m2).1
    ∧ (commandstringCall (applyOps p ops).1).1 = (commandstringCall p.1).1
    ∧ (commandstringCall m).1 = commandScriptName :=
  ⟨rfl, rfl, rfl⟩

/-- Claim C5: the module class derives publicly from SLIModule, and this
class declaration is the only top-level declaration of the header. -/
theorem moduleClass_derives_SLIModule :
    moduleClass.bases = [(Access.publicAcc, sliModuleName)]
    ∧ headerFile.decls = [TopDecl.classDecl moduleClass] :=
  ⟨rfl, rfl⟩

/-- Claim C6: the constructor registers only the module itself with the
dynamic loader and leaves the network kernel untouched; the neuron model is
registered with the kernel only by init, which in turn leaves the loader
untouched. -/
theorem registration_split (s : HostState) (i : SLIInterpreterHandle) :
    (constructModule s).2.loader.modules = moduleClassName :: s.loader.modules
    ∧ (constructModule s).2.kernel = s.kernel
    ∧ (initModule (constructModule s).1 i (constructModule s).2).2.2.loader
        = (constructModule s).2.loader
    ∧ (initModule (constructModule s).1 i (constructModule s).2).2.2.kernel.models
        = neuronModelName :: s.kernel.models :=
  ⟨rfl, rfl, rfl, rfl⟩

/-- Claim C7: no member declared in the header returns an error value or
result code: the constructor and destructor have no return type, init
returns void, and the two accessors return const std::string. -/
theorem no_member_returns_error_code :
    moduleClass.allFns.all (fun f => ! returnsErrorCode f.kind) = true
    ∧ moduleClass.allFns.map (fun f => returnTypeOf f.kind)
        = [none, none, some CppType.void, some CppType.constStdString,
           some CppType.constStdString] :=
  ⟨rfl, rfl⟩

/-- Claim C8: the class declares no data members and no nested classes, so
the module object carries no state of its own; every operation on the
object leaves it unchanged, and any two module objects are equal. -/
theorem moduleObj_stateless (m : ModuleObj) (s : HostState) (op : ModuleOp)
    (m2 : ModuleObj) :
    moduleClass.allDataMembers = []
    ∧ moduleClass.allNestedClasses = []
    ∧ (applyOp m s op).1 = m
    ∧ m = m2 := by
  refine ⟨rfl, rfl, ?_, ?_⟩
  · cases op <;> rfl
  · cases m; cases m2; rfl

/-- Claim C9: name and commandstring are declared const in the header, and
calling either leaves the module object unchanged. -/
theorem accessors_const_and_frame (m : ModuleObj) :
    isConstMethod nameDecl.kind = true
    ∧ isConstMethod commandstringDecl.kind = true
    ∧ (nameCall m).2 = m
    ∧ (commandstringCall m).2 = m :=
  ⟨rfl, rfl, rfl, rfl⟩

/-- Claim C10: the header carries the include guard IAF_COND_DECO2014MODULE_H,
so including it any positive number of times in one translation unit emits
exactly the declarations of a single inclusion. -/
theorem include_guard_idempotent (n : Nat) :
    headerFile.guardSym = guardName
    ∧ includeHeaderTimes headerFile (n + 1) [] = includeHeaderTimes headerFile 1 [] := by
  refine ⟨rfl, ?_⟩
  have h1 : includeHeader headerFile [] = ([headerFile.guardSym], headerFile.decls) := by
    simp [includeHeader]
  have h2 : includeHeaderTimes headerFile n [headerFile.guardSym]
      = ([headerFile.guardSym], []) :=
    includeHeaderTimes_of_defined headerFile n [headerFile.guardSym]
      (List.mem_singleton.mpr rfl)
  simp [includeHeaderTimes, h1, h2]
